import Mathlib

/-!
# Verification of the content-storefront entitlement engine

Shallow embedding of the entitlement, catalog-gating, ingestion and payment
settlement logic of `src/main.py` (a Telegram storefront bot backed by a
sqlite database), together with proofs about the embedded operations.

Modelling conventions:
* sqlite tables become Lean lists of row structures; `fetchone` on a query
  becomes `List.find?` (first matching row);
* `INSERT OR IGNORE` / `INSERT OR REPLACE` / `UPDATE` become the explicit
  list transformations below;
* timestamps are natural numbers counted in days, so Python's
  `(expiry - now).days` is exactly `expiry - now` and
  `now + timedelta(days=d)` is `now + d`;
* Python string helpers used by the code (`str.split('_')`, `str.strip()`,
  `int(...)`, `str.lower()`) are re-implemented structurally over the
  character list of the string so that every definition is executable and
  kernel-reducible.
-/

set_option autoImplicit false

namespace ContentBot

/-! ## Python string primitives -/

/-- `s.split('_')` of Python: split on every underscore, keeping empty
    fields; the split of the empty string is `[""]`. Auxiliary recursion
    carrying the (reversed) characters of the current field. -/
def splitUnderscoreAux : List Char → List Char → List String
  | [], acc => [String.mk acc.reverse]
  | c :: cs, acc =>
      if c = '_' then String.mk acc.reverse :: splitUnderscoreAux cs []
      else splitUnderscoreAux cs (c :: acc)

/-- Python `s.split('_')`. -/
def pySplitUnderscore (s : String) : List String :=
  splitUnderscoreAux s.data []

/-- Python `s.strip()`: drop leading and trailing whitespace. -/
def pyStrip (s : String) : String :=
  String.mk (((s.data.dropWhile Char.isWhitespace).reverse.dropWhile
    Char.isWhitespace).reverse)

/-- Python `int(s)` restricted to the non-negative inputs the bot feeds it:
    `some n` when `s` is a non-empty string of decimal digits, `none` when
    `int(...)` would raise (which the code catches, or which aborts the
    handler before any database write). -/
def pyToNat (s : String) : Option Nat :=
  if s.data ≠ [] ∧ s.data.all Char.isDigit then
    some (s.data.foldl (fun n c => n * 10 + (c.toNat - '0'.toNat)) 0)
  else none

/-- Python `s.lower()`. -/
def pyLower (s : String) : String :=
  String.mk (s.data.map Char.toLower)

/-! ## Data model: the sqlite tables of `init_database` -/

/-- A row of the `content_items` table (`name` is the primary key;
    `content_type` is `"browse"` for individually purchasable items and
    `"vip"` for subscription-exclusive items). -/
structure ContentItem where
  name : String
  priceStars : Nat
  filePath : String
  description : String
  contentType : String
  deriving Repr, DecidableEq

/-- A row of the `user_purchases` table; the table carries
    `UNIQUE (user_id, content_name)`. -/
structure PurchaseRow where
  userId : Nat
  contentName : String
  purchaseDate : Nat
  pricePaid : Nat
  deriving Repr, DecidableEq

/-- A row of the `vip_subscriptions` table (`user_id` is the primary key). -/
structure SubscriptionRow where
  userId : Nat
  startDate : Nat
  expiryDate : Nat
  isActive : Bool
  totalPayments : Nat
  deriving Repr, DecidableEq

/-- The slice of a `users` row the settlement handler touches. -/
structure UserRow where
  userId : Nat
  totalStarsSpent : Nat
  deriving Repr, DecidableEq

/-- The database state: the four tables the claims concern, plus the
    `vip_duration_days` entry of the `vip_settings` table. -/
structure DB where
  contentItems : List ContentItem
  purchases : List PurchaseRow
  subscriptions : List SubscriptionRow
  users : List UserRow
  vipDurationDays : Nat
  deriving Repr, DecidableEq

/-- `SELECT ... FROM vip_subscriptions WHERE user_id = ? AND is_active = 1`
    with `fetchone`. -/
def DB.findActiveSub (db : DB) (userId : Nat) : Option SubscriptionRow :=
  db.subscriptions.find? (fun s => s.userId == userId && s.isActive)

/-- `SELECT ... FROM vip_subscriptions WHERE user_id = ?` with `fetchone`. -/
def DB.findSub (db : DB) (userId : Nat) : Option SubscriptionRow :=
  db.subscriptions.find? (fun s => s.userId == userId)

/-- `SELECT ... FROM content_items WHERE name = ?` with `fetchone`. -/
def DB.findContent (db : DB) (name : String) : Option ContentItem :=
  db.contentItems.find? (fun c => c.name == name)

/-- `check_user_owns_content`: true iff a `user_purchases` row exists for
    the pair. -/
def check_user_owns_content (db : DB) (userId : Nat) (contentName : String) :
    Bool :=
  (db.purchases.find?
    (fun p => p.userId == userId && p.contentName == contentName)).isSome

/-! ## Entitlement engine: VIP status and renewal -/

/-- The dictionary returned by `check_vip_status`. -/
structure VipStatus where
  isVip : Bool
  daysLeft : Nat
  expired : Bool
  deriving Repr, DecidableEq

/-- `deactivate_expired_vip`:
    `UPDATE vip_subscriptions SET is_active = 0 WHERE user_id = ?`. -/
def deactivate_expired_vip (db : DB) (userId : Nat) : DB :=
  let subs := db.subscriptions.map
    (fun s => if s.userId == userId then { s with isActive := false } else s)
  { db with subscriptions := subs }

/-- `check_vip_status`: reads the active subscription row; if the expiry is
    still in the future reports VIP with the remaining days, otherwise
    deactivates the row as a side effect and reports `expired`. Returns the
    status together with the (possibly updated) database. -/
def check_vip_status (db : DB) (userId : Nat) (now : Nat) : VipStatus × DB :=
  match db.findActiveSub userId with
  | none => (⟨false, 0, false⟩, db)
  | some s =>
      if now < s.expiryDate then
        (⟨true, s.expiryDate - now, false⟩, db)
      else
        (⟨false, 0, true⟩, deactivate_expired_vip db userId)

/-- `INSERT OR REPLACE INTO vip_subscriptions ...` (primary key `user_id`):
    replace the row of the same user if present, else append. -/
def insertOrReplaceSub (db : DB) (row : SubscriptionRow) : DB :=
  if (db.subscriptions.find? (fun s => s.userId == row.userId)).isSome then
    let subs := db.subscriptions.map
      (fun s => if s.userId == row.userId then row else s)
    { db with subscriptions := subs }
  else
    { db with subscriptions := db.subscriptions ++ [row] }

/-- `activate_vip_subscription`: reads `vip_duration_days`; if a row with
    `is_active = 1` exists, extends it from `max(current_expiry, now)` and
    increments `total_payments`; otherwise writes a fresh row for the user
    with `total_payments = 1` via `INSERT OR REPLACE`. Returns the duration
    granted and the updated database. -/
def activate_vip_subscription (db : DB) (userId : Nat) (now : Nat) :
    Nat × DB :=
  let durationDays := db.vipDurationDays
  match db.findActiveSub userId with
  | some existing =>
      let extendFrom := max existing.expiryDate now
      let newExpiry := extendFrom + durationDays
      let subs := db.subscriptions.map
        (fun s => if s.userId == userId then
          { s with expiryDate := newExpiry, isActive := true,
                   totalPayments := s.totalPayments + 1 }
          else s)
      (durationDays, { db with subscriptions := subs })
  | none =>
      (durationDays,
        insertOrReplaceSub db
          ⟨userId, now, now + durationDays, true, 1⟩)

/-! ## Catalog gating: purchase requests and the VIP catalog -/

/-- The observable outcome of `purchase_item`: an invoice sent for a
    purchasable item (Proceed), the already-owned message, the
    "VIP-exclusive, upgrade instead" denial, or the catalog-miss message. -/
inductive PurchaseOutcome where
  | invoice (name : String) (priceStars : Nat)
  | alreadyOwned (name : String)
  | notIndividual (name : String)
  | notFound (name : String)
  deriving Repr, DecidableEq

/-- `purchase_item`: looks the item up restricted to
    `content_type = 'browse'`; on a hit, re-checks the content type (a
    redundant guard in the code) and ownership, then sends an invoice.
    On a miss, looks the name up without the type restriction and answers
    with the VIP-exclusive denial when the row is `'vip'`, else with the
    catalog-miss message. -/
def purchase_item (db : DB) (userId : Nat) (itemName : String) :
    PurchaseOutcome :=
  match db.contentItems.find?
      (fun c => c.name == itemName && c.contentType == "browse") with
  | some item =>
      if item.contentType != "browse" then .notIndividual itemName
      else if check_user_owns_content db userId item.name then
        .alreadyOwned item.name
      else .invoice item.name item.priceStars
  | none =>
      match db.findContent itemName with
      | some c =>
          if c.contentType == "vip" then .notIndividual itemName
          else .notFound itemName
      | none => .notFound itemName

/-- One entry rendered by `show_vip_catalog` for a VIP item: the item name,
    the fixed free-access label printed instead of the price, and the
    free-delivery callback attached to its button. The price column of the
    row is not consulted. -/
structure VipCatalogEntry where
  name : String
  accessLabel : String
  callback : String
  deriving Repr, DecidableEq

/-- The observable outcome of `show_vip_catalog`: the upgrade-prompt denial
    for non-VIP callers, the rendered library, or the "no VIP content yet"
    note shown to a VIP when the library is empty. -/
inductive VipCatalogResult where
  | denied
  | catalog (entries : List VipCatalogEntry)
  | noContent
  deriving Repr, DecidableEq

/-- `show_vip_catalog`: checks VIP status first (with its lazy-deactivation
    side effect); non-VIP callers get the denial. A VIP caller gets every
    `content_type = 'vip'` row rendered with the `VIP FREE ACCESS` label and
    a `vip_get_` callback, or the no-content note when there is none. -/
def show_vip_catalog (db : DB) (userId : Nat) (now : Nat) :
    VipCatalogResult × DB :=
  let statusAndDb := check_vip_status db userId now
  if !statusAndDb.1.isVip then (.denied, statusAndDb.2)
  else
    let vipItems := statusAndDb.2.contentItems.filter
      (fun c => c.contentType == "vip")
    if vipItems.isEmpty then (.noContent, statusAndDb.2)
    else
      (.catalog (vipItems.map
        (fun c => ⟨c.name, "VIP FREE ACCESS", "vip_get_" ++ c.name⟩)),
       statusAndDb.2)

/-! ## Payment settlement handler -/

/-- A confirmed payment notification as the handler consumes it: the opaque
    invoice payload string and the amount paid. The code never reads the
    transport's charge identifier, so the handler's behaviour is a function
    of exactly these two fields. -/
structure Payment where
  invoicePayload : String
  totalAmount : Nat
  deriving Repr, DecidableEq

/-- The user-visible effects of `successful_payment_handler` that the
    claims concern: a VIP activation confirmation, the delivery of a
    content item to a user, or an exception aborting the handler before
    any database write (`int(...)` or an index failing on the payload). -/
inductive SettleEffect where
  | vipActivated (userId : Nat) (durationDays : Nat)
  | delivered (contentName : String) (userId : Nat)
  | handlerError
  deriving Repr, DecidableEq

/-- `UPDATE users SET total_stars_spent = total_stars_spent + ? WHERE
    user_id = ?`. -/
def updateTotalSpent (db : DB) (userId : Nat) (amount : Nat) : DB :=
  let users := db.users.map
    (fun u => if u.userId == userId then
      { u with totalStarsSpent := u.totalStarsSpent + amount } else u)
  { db with users := users }

/-- `INSERT OR IGNORE INTO user_purchases ...` under
    `UNIQUE (user_id, content_name)`: the insert is a no-op when a row with
    the same key already exists. -/
def insertOrIgnorePurchase (db : DB) (row : PurchaseRow) : DB :=
  if (db.purchases.find?
      (fun p => p.userId == row.userId && p.contentName == row.contentName)).isSome
  then db
  else { db with purchases := db.purchases ++ [row] }

/-- `successful_payment_handler`: splits the invoice payload on `'_'`.
    A `vip`/`subscription` payload adds the amount to the user's lifetime
    spend and calls `activate_vip_subscription`. A `content` payload adds
    the amount to the lifetime spend, does the `INSERT OR IGNORE` purchase
    insert, then looks the item up and — whenever the row exists — delivers
    the content, without consulting whether the insert created a row.
    Payloads matching neither shape do nothing. -/
def successful_payment_handler (db : DB) (payment : Payment) (now : Nat) :
    DB × List SettleEffect :=
  match pySplitUnderscore payment.invoicePayload with
  | p0 :: p1 :: rest =>
      if p0 = "vip" ∧ p1 = "subscription" then
        match rest with
        | uidStr :: _ =>
            match pyToNat uidStr with
            | some userId =>
                let db1 := updateTotalSpent db userId payment.totalAmount
                let actRes := activate_vip_subscription db1 userId now
                (actRes.2, [.vipActivated userId actRes.1])
            | none => (db, [.handlerError])
        | [] => (db, [.handlerError])
      else if p0 = "content" then
        match rest with
        | uidStr :: _ =>
            match pyToNat uidStr with
            | some userId =>
                let contentName := p1
                let db1 := updateTotalSpent db userId payment.totalAmount
                let db2 := insertOrIgnorePurchase db1
                  ⟨userId, contentName, now, payment.totalAmount⟩
                match db2.findContent contentName with
                | some _ => (db2, [.delivered contentName userId])
                | none => (db2, [])
            | none => (db, [.handlerError])
        | [] => (db, [])
      else (db, [])
  | _ => (db, [])

/-! ## Ingestion session machine: the guided upload flow -/

/-- The step cursor of an upload session (`session['step']`). -/
inductive UploadStep where
  | waitingForFile
  | waitingForName
  | waitingForPrice
  | waitingForDescription
  deriving Repr, DecidableEq

/-- An `upload_sessions[OWNER_ID]` dictionary: the optional `'type'` key
    (`some "vip_content"` for the VIP wizard, absent for the regular one),
    the step cursor and the partially collected content fields. -/
structure UploadSession where
  sessionType : Option String
  contentTypeField : Option String
  step : UploadStep
  name : Option String
  price : Option Nat
  description : Option String
  filePath : Option String
  fileType : Option String
  deriving Repr, DecidableEq

/-- Name validation shared by `handle_vip_name_input` and
    `handle_upload_flow`: non-empty, no space, only alphanumerics and
    underscores. -/
def validContentName (name : String) : Bool :=
  !name.data.isEmpty && !name.data.contains ' ' &&
    name.data.all (fun c => c.isAlphanum || c = '_')

/-- `save_uploaded_content`: one `INSERT INTO content_items` using the
    accumulated session fields (content type defaulting to `'browse'`),
    then the session is deleted; if the insert raises (the name is the
    primary key), the exception handler also deletes the session and
    nothing is committed. Returns the database and `none` for the deleted
    session. -/
def save_uploaded_content (db : DB) (session : UploadSession) :
    DB × Option UploadSession :=
  let name := session.name.getD ""
  if (db.contentItems.find? (fun c => c.name == name)).isSome then
    (db, none)
  else
    ({ db with contentItems := db.contentItems ++
        [⟨name, session.price.getD 0, session.filePath.getD "",
          session.description.getD "",
          session.contentTypeField.getD "browse"⟩] },
     none)

/-- `handle_vip_name_input`: strips the text, rejects it (session and
    database untouched) when it fails validation or collides with an
    existing content name, and otherwise stores it and advances the VIP
    session to the description step. -/
def handle_vip_name_input (db : DB) (session : UploadSession)
    (text : String) : DB × Option UploadSession :=
  let name := pyStrip text
  if !validContentName name then (db, some session)
  else if (db.contentItems.find? (fun c => c.name == name)).isSome then
    (db, some session)
  else
    (db, some { session with name := some name,
                             step := .waitingForDescription })

/-- `handle_vip_description_input`: stores the (possibly defaulted)
    description, fixes the price at 0 and commits via
    `save_uploaded_content`. -/
def handle_vip_description_input (db : DB) (session : UploadSession)
    (text : String) : DB × Option UploadSession :=
  let d := pyStrip text
  let description :=
    if pyLower d = "skip" then
      "Exclusive VIP " ++ pyLower (session.fileType.getD "content")
    else d
  save_uploaded_content db
    { session with description := some description, price := some 0 }

/-- `handle_upload_flow` restricted to the text messages it receives for a
    VIP or regular upload session: dispatches VIP sessions to the VIP name
    and description handlers; for a regular session it validates a name
    (rejections leave the session untouched), parses a price (`int(...)`
    failures and non-positive prices leave the session untouched), or
    takes a description and commits. A text received while the session
    still waits for a file matches no branch and changes nothing. -/
def handle_upload_flow (db : DB) (session : UploadSession) (text : String) :
    DB × Option UploadSession :=
  if session.sessionType = some "vip_content" ∧
      session.step = .waitingForName then
    handle_vip_name_input db session text
  else if session.sessionType = some "vip_content" ∧
      session.step = .waitingForDescription then
    handle_vip_description_input db session text
  else
    match session.step with
    | .waitingForFile => (db, some session)
    | .waitingForName =>
        let name := pyStrip text
        if !validContentName name then (db, some session)
        else if (db.contentItems.find? (fun c => c.name == name)).isSome then
          (db, some session)
        else
          (db, some { session with name := some name,
                                   step := .waitingForPrice })
    | .waitingForPrice =>
        match pyToNat (pyStrip text) with
        | none => (db, some session)
        | some price =>
            if price ≤ 0 then (db, some session)
            else
              (db, some { session with price := some price,
                                       step := .waitingForDescription })
    | .waitingForDescription =>
        let d := pyStrip text
        let description :=
          if pyLower d = "skip" then
            "Exclusive " ++ pyLower (session.fileType.getD "content") ++
              " content"
          else d
        save_uploaded_content db
          { session with description := some description }

/-! ## The operations that can touch the ledger after initialisation -/

/-- One inbound event hitting the embedded engine. `applyOp` below gives
    its effect on the database; events whose handlers only read the ledger
    (such as `purchase_item`, which sends an invoice but writes nothing)
    leave it unchanged. -/
inductive Op where
  | settle (payment : Payment) (now : Nat)
  | purchaseRequest (userId : Nat) (itemName : String)
  | vipStatus (userId : Nat) (now : Nat)
  | vipCatalog (userId : Nat) (now : Nat)
  | renew (userId : Nat) (now : Nat)
  | deactivate (userId : Nat)

/-- The database transition of each operation. -/
def applyOp (db : DB) : Op → DB
  | .settle payment now => (successful_payment_handler db payment now).1
  | .purchaseRequest _ _ => db
  | .vipStatus userId now => (check_vip_status db userId now).2
  | .vipCatalog userId now => (show_vip_catalog db userId now).2
  | .renew userId now => (activate_vip_subscription db userId now).2
  | .deactivate userId => deactivate_expired_vip db userId

/-! ## Derived observers and well-formedness of the tables -/

/-- The lifetime spend recorded for a user, when the user row exists. -/
def DB.totalSpent (db : DB) (uid : Nat) : Option Nat :=
  (db.users.find? (fun u => u.userId == uid)).map (·.totalStarsSpent)

/-- Key uniqueness of `user_purchases` (`UNIQUE (user_id, content_name)`). -/
def DB.purchasesUnique (db : DB) : Prop :=
  db.purchases.Pairwise
    (fun a b => ¬(a.userId = b.userId ∧ a.contentName = b.contentName))

/-- Key uniqueness of `vip_subscriptions` (`user_id` primary key). -/
def DB.subsUnique (db : DB) : Prop :=
  db.subscriptions.Pairwise (fun a b => a.userId ≠ b.userId)

/-- Key uniqueness of `content_items` (`name` primary key). -/
def DB.contentNamesUnique (db : DB) : Prop :=
  db.contentItems.Pairwise (fun a b => a.name ≠ b.name)

/-! ## Helper lemmas -/

/-- `find?` after a keyed in-place update: updating exactly the rows whose
    key is `uid` with a key-preserving function commutes with looking the
    key up. -/
theorem find?_map_keyed {α : Type} (key : α → Nat) (uid : Nat) (f : α → α)
    (hf : ∀ r, key r = uid → key (f r) = uid) (l : List α) :
    (l.map (fun r => if key r == uid then f r else r)).find?
        (fun s => key s == uid)
      = (l.find? (fun s => key s == uid)).map f := by
  induction l with
  | nil => rfl
  | cons h t ih =>
      by_cases hk : key h = uid
      · have h1 : (key h == uid) = true := by simp [hk]
        have h2 : (key (f h) == uid) = true := by simp [hf h hk]
        have hg : (if (key h == uid) = true then f h else h) = f h := by
          rw [h1]
          simp
        rw [List.map_cons, hg, List.find?_cons, List.find?_cons, h1, h2]
        rfl
      · have h1 : (key h == uid) = false := by simp [hk]
        have hg : (if (key h == uid) = true then f h else h) = h := by
          rw [h1]
          simp
        rw [List.map_cons, hg, List.find?_cons, List.find?_cons, h1]
        simp only [cond_false]
        exact ih

/-- A row list with no row keyed `uid` has no active row keyed `uid`. -/
theorem findActive_eq_none_of_find_eq_none (l : List SubscriptionRow)
    (uid : Nat) (h : l.find? (fun s => s.userId == uid) = none) :
    l.find? (fun s => s.userId == uid && s.isActive) = none := by
  rw [List.find?_eq_none] at h ⊢
  intro a ha hpa
  simp only [Bool.and_eq_true, beq_iff_eq] at hpa
  exact h a ha (by simp [hpa.1])

/-- After `deactivate_expired_vip` the user has no active subscription
    row. -/
theorem findActiveSub_deactivate (db : DB) (uid : Nat) :
    (deactivate_expired_vip db uid).findActiveSub uid = none := by
  unfold deactivate_expired_vip DB.findActiveSub
  rw [List.find?_eq_none]
  intro x hx
  rcases List.mem_map.1 hx with ⟨r, _, rfl⟩
  by_cases hk : r.userId = uid
  · simp [hk]
  · simp [hk]

/-- Under the `user_id` primary key, the row found by the
    `is_active = 1` query is also the row found without the activity
    restriction. -/
theorem find?_of_findActive (l : List SubscriptionRow) (uid : Nat)
    (s : SubscriptionRow)
    (hu : l.Pairwise (fun a b => a.userId ≠ b.userId))
    (hs : l.find? (fun r => r.userId == uid && r.isActive) = some s) :
    l.find? (fun r => r.userId == uid) = some s := by
  induction l with
  | nil => simp [List.find?] at hs
  | cons h t ih =>
      rcases List.pairwise_cons.1 hu with ⟨hh, ht⟩
      by_cases hk : h.userId = uid
      · by_cases ha : h.isActive
        · have hp : (h.userId == uid && h.isActive) = true := by simp [hk, ha]
          rw [List.find?_cons, hp] at hs
          cases hs
          simp [List.find?_cons, hk]
        · have hp : (h.userId == uid && h.isActive) = false := by simp [ha]
          rw [List.find?_cons, hp] at hs
          exfalso
          have hnone : t.find? (fun r => r.userId == uid && r.isActive)
              = none := by
            rw [List.find?_eq_none]
            intro a hat hpa
            simp only [Bool.and_eq_true, beq_iff_eq] at hpa
            exact hh a hat (hk.trans hpa.1.symm)
          rw [hnone] at hs
          cases hs
      · have hp : (h.userId == uid && h.isActive) = false := by simp [hk]
        rw [List.find?_cons, hp] at hs
        have hq : (h.userId == uid) = false := by simp [hk]
        simp only [List.find?_cons, hq, cond_false]
        exact ih ht hs

/-- Under the `name` primary key, two rows of the content table with the
    same name are the same row. -/
theorem contentItem_eq_of_name_eq (l : List ContentItem)
    (hu : l.Pairwise (fun a b => a.name ≠ b.name))
    {a c : ContentItem} (ha : a ∈ l) (hc : c ∈ l) (h : a.name = c.name) :
    a = c := by
  induction l with
  | nil => cases ha
  | cons x t ih =>
      rcases List.pairwise_cons.1 hu with ⟨hx, ht⟩
      rcases List.mem_cons.1 ha with rfl | hat
      · rcases List.mem_cons.1 hc with rfl | hct
        · rfl
        · exact absurd h (hx c hct)
      · rcases List.mem_cons.1 hc with rfl | hct
        · exact absurd h.symm (hx a hat)
        · exact ih ht hat hct

/-- `deactivate_expired_vip` leaves every table but `vip_subscriptions`
    unchanged. -/
theorem deactivate_frame (db : DB) (uid : Nat) :
    (deactivate_expired_vip db uid).contentItems = db.contentItems ∧
    (deactivate_expired_vip db uid).purchases = db.purchases ∧
    (deactivate_expired_vip db uid).users = db.users ∧
    (deactivate_expired_vip db uid).vipDurationDays = db.vipDurationDays :=
  ⟨rfl, rfl, rfl, rfl⟩

/-- `check_vip_status` leaves every table but `vip_subscriptions`
    unchanged. -/
theorem check_vip_status_frame (db : DB) (uid now : Nat) :
    (check_vip_status db uid now).2.contentItems = db.contentItems ∧
    (check_vip_status db uid now).2.purchases = db.purchases ∧
    (check_vip_status db uid now).2.users = db.users ∧
    (check_vip_status db uid now).2.vipDurationDays = db.vipDurationDays := by
  unfold check_vip_status
  rcases h : db.findActiveSub uid with _ | s
  · exact ⟨rfl, rfl, rfl, rfl⟩
  · dsimp only
    split
    · exact ⟨rfl, rfl, rfl, rfl⟩
    · exact ⟨rfl, rfl, rfl, rfl⟩

/-- `activate_vip_subscription` leaves every table but `vip_subscriptions`
    unchanged. -/
theorem activate_frame (db : DB) (uid now : Nat) :
    (activate_vip_subscription db uid now).2.contentItems = db.contentItems ∧
    (activate_vip_subscription db uid now).2.purchases = db.purchases ∧
    (activate_vip_subscription db uid now).2.users = db.users ∧
    (activate_vip_subscription db uid now).2.vipDurationDays
      = db.vipDurationDays := by
  unfold activate_vip_subscription insertOrReplaceSub
  cases db.findActiveSub uid with
  | none =>
      by_cases hex : (db.subscriptions.find?
          (fun s => s.userId == uid)).isSome
      · simp only [hex]
        exact ⟨rfl, rfl, rfl, rfl⟩
      · simp only []
        split
        · exact ⟨rfl, rfl, rfl, rfl⟩
        · exact ⟨rfl, rfl, rfl, rfl⟩
  | some s => exact ⟨rfl, rfl, rfl, rfl⟩

/-- `updateTotalSpent` leaves every table but `users` unchanged. -/
theorem updateTotalSpent_frame (db : DB) (uid amt : Nat) :
    (updateTotalSpent db uid amt).contentItems = db.contentItems ∧
    (updateTotalSpent db uid amt).purchases = db.purchases ∧
    (updateTotalSpent db uid amt).subscriptions = db.subscriptions ∧
    (updateTotalSpent db uid amt).vipDurationDays = db.vipDurationDays :=
  ⟨rfl, rfl, rfl, rfl⟩

/-- `updateTotalSpent` adds the amount to the stored lifetime spend of the
    targeted user. -/
theorem totalSpent_update (db : DB) (uid amt : Nat) :
    (updateTotalSpent db uid amt).totalSpent uid
      = (db.totalSpent uid).map (· + amt) := by
  unfold updateTotalSpent DB.totalSpent
  have h := find?_map_keyed (fun u : UserRow => u.userId) uid
    (fun u => { u with totalStarsSpent := u.totalStarsSpent + amt })
    (fun r hr => hr) db.users
  simp only [] at h ⊢
  rw [h]
  cases db.users.find? (fun u => u.userId == uid) <;> rfl

/-- The subscription row after `activate_vip_subscription` when an
    active-flagged row exists: the expiry is extended from
    `max(current expiry, now)` and the payment counter is incremented. -/
theorem activate_findSub_of_active (db : DB) (uid now : Nat)
    (s : SubscriptionRow) (hu : db.subsUnique)
    (hs : db.findActiveSub uid = some s) :
    (activate_vip_subscription db uid now).2.findSub uid
      = some { s with
          expiryDate := max s.expiryDate now + db.vipDurationDays,
          isActive := true,
          totalPayments := s.totalPayments + 1 } := by
  unfold activate_vip_subscription
  rw [hs]
  simp only [DB.findSub]
  have h := find?_map_keyed (fun r : SubscriptionRow => r.userId) uid
    (fun r => { r with
        expiryDate := max s.expiryDate now + db.vipDurationDays,
        isActive := true, totalPayments := r.totalPayments + 1 })
    (fun r hr => hr) db.subscriptions
  simp only [] at h
  rw [h]
  have hfind : db.subscriptions.find? (fun r => r.userId == uid) = some s :=
    find?_of_findActive db.subscriptions uid s hu hs
  rw [hfind]
  rfl

/-- The subscription row after `activate_vip_subscription` when no
    active-flagged row exists: a fresh row starting now with payment
    counter 1, regardless of any deactivated row that may be replaced. -/
theorem activate_findSub_of_inactive (db : DB) (uid now : Nat)
    (hs : db.findActiveSub uid = none) :
    (activate_vip_subscription db uid now).2.findSub uid
      = some ⟨uid, now, now + db.vipDurationDays, true, 1⟩ := by
  unfold activate_vip_subscription insertOrReplaceSub
  rw [hs]
  simp only [DB.findSub]
  by_cases hex : (db.subscriptions.find? (fun r => r.userId == uid)).isSome
  · rcases Option.isSome_iff_exists.1 hex with ⟨r0, hr0⟩
    rw [if_pos hex]
    have h := find?_map_keyed (fun r : SubscriptionRow => r.userId) uid
      (fun _ => (⟨uid, now, now + db.vipDurationDays, true, 1⟩ :
        SubscriptionRow))
      (fun r _ => rfl) db.subscriptions
    simp only [] at h
    rw [h, hr0]
    rfl
  · rw [if_neg hex]
    have hnone : db.subscriptions.find? (fun r => r.userId == uid) = none :=
      Option.not_isSome_iff_eq_none.1 hex
    rw [List.find?_append, hnone]
    simp [List.find?]

/-- The purchase table after `insertOrIgnorePurchase`: unchanged, or
    extended by exactly the fresh row, which then had no key-equal row
    before. -/
theorem insertOrIgnorePurchase_purchases (db : DB) (row : PurchaseRow) :
    (insertOrIgnorePurchase db row).purchases = db.purchases ∨
    ((insertOrIgnorePurchase db row).purchases = db.purchases ++ [row] ∧
      db.purchases.find? (fun p => p.userId == row.userId &&
        p.contentName == row.contentName) = none) := by
  unfold insertOrIgnorePurchase
  by_cases hex : (db.purchases.find? (fun p => p.userId == row.userId &&
      p.contentName == row.contentName)).isSome
  · rw [if_pos hex]
    left
    rfl
  · rw [if_neg hex]
    right
    exact ⟨rfl, Option.not_isSome_iff_eq_none.1 hex⟩

/-- A successful `find?` stays successful after appending rows. -/
theorem find?_isSome_append {α : Type} (p : α → Bool) (l1 l2 : List α)
    (h : (l1.find? p).isSome) : ((l1 ++ l2).find? p).isSome := by
  rw [List.find?_append]
  cases hf : l1.find? p with
  | none => rw [hf] at h; cases h
  | some a => simp [hf]

/-- `show_vip_catalog` performs exactly the state change of its
    `check_vip_status` call. -/
theorem show_vip_catalog_state (db : DB) (uid now : Nat) :
    (show_vip_catalog db uid now).2 = (check_vip_status db uid now).2 := by
  unfold show_vip_catalog
  dsimp only
  split
  · rfl
  · split
    · rfl
    · rfl

/-- The purchase table after one settlement: unchanged, or extended by
    exactly one row whose (user, item) key was not present before. -/
theorem settle_purchases (db : DB) (payment : Payment) (now : Nat) :
    (successful_payment_handler db payment now).1.purchases = db.purchases ∨
    ∃ row, (successful_payment_handler db payment now).1.purchases
        = db.purchases ++ [row] ∧
      db.purchases.find? (fun p => p.userId == row.userId &&
        p.contentName == row.contentName) = none := by
  unfold successful_payment_handler
  rcases hsp : pySplitUnderscore payment.invoicePayload with _ | ⟨p0, rest0⟩
  · left; rfl
  rcases rest0 with _ | ⟨p1, rest⟩
  · left; rfl
  dsimp only
  by_cases hv : p0 = "vip" ∧ p1 = "subscription"
  · rw [if_pos hv]
    rcases rest with _ | ⟨uidStr, rest2⟩
    · left; rfl
    dsimp only
    rcases hn : pyToNat uidStr with _ | uid
    · left; rfl
    · left
      exact (activate_frame (updateTotalSpent db uid payment.totalAmount)
        uid now).2.1
  · rw [if_neg hv]
    by_cases hc : p0 = "content"
    · rw [if_pos hc]
      rcases rest with _ | ⟨uidStr, rest2⟩
      · left; rfl
      dsimp only
      rcases hn : pyToNat uidStr with _ | uid
      · left; rfl
      · dsimp only
        have hin := insertOrIgnorePurchase_purchases
          (updateTotalSpent db uid payment.totalAmount)
          ⟨uid, p1, now, payment.totalAmount⟩
        rcases hfc : (insertOrIgnorePurchase
            (updateTotalSpent db uid payment.totalAmount)
            ⟨uid, p1, now, payment.totalAmount⟩).findContent p1 with _ | c
        all_goals
          rcases hin with h | ⟨h1, h2⟩
        · left; exact h
        · right; exact ⟨_, h1, h2⟩
        · left; exact h
        · right; exact ⟨_, h1, h2⟩
    · rw [if_neg hc]
      left; rfl

/-- One operation never removes or edits a purchase row: it keeps the table
    or appends one fresh-keyed row. -/
theorem applyOp_purchases (db : DB) (op : Op) :
    (applyOp db op).purchases = db.purchases ∨
    ∃ row, (applyOp db op).purchases = db.purchases ++ [row] ∧
      db.purchases.find? (fun p => p.userId == row.userId &&
        p.contentName == row.contentName) = none := by
  cases op with
  | settle payment now => exact settle_purchases db payment now
  | purchaseRequest u i => left; rfl
  | vipStatus u now => left; exact (check_vip_status_frame db u now).2.1
  | vipCatalog u now =>
      left
      show (show_vip_catalog db u now).2.purchases = db.purchases
      rw [show_vip_catalog_state]
      exact (check_vip_status_frame db u now).2.1
  | renew u now => left; exact (activate_frame db u now).2.1
  | deactivate u => left; rfl

/-- One operation preserves key uniqueness of the purchase table. -/
theorem applyOp_purchasesUnique (db : DB) (op : Op)
    (h : db.purchasesUnique) : (applyOp db op).purchasesUnique := by
  rcases applyOp_purchases db op with heq | ⟨row, heq, hnone⟩
  · unfold DB.purchasesUnique at h ⊢
    rw [heq]
    exact h
  · unfold DB.purchasesUnique at h ⊢
    rw [heq, List.pairwise_append]
    refine ⟨h, List.pairwise_singleton _ _, ?_⟩
    intro a ha b hb
    rcases List.mem_singleton.1 hb with rfl
    rw [List.find?_eq_none] at hnone
    intro hk
    exact hnone a ha (by simp [hk.1, hk.2])

/-- One operation never falsifies recorded ownership. -/
theorem applyOp_owns_mono (db : DB) (op : Op) (u : Nat) (i : String)
    (h : check_user_owns_content db u i = true) :
    check_user_owns_content (applyOp db op) u i = true := by
  unfold check_user_owns_content at h ⊢
  rcases applyOp_purchases db op with heq | ⟨row, heq, _⟩
  · rw [heq]; exact h
  · rw [heq]
    exact find?_isSome_append _ _ _ h

/-- Uniqueness of the purchase table is an inductive invariant of the
    whole operation alphabet. -/
theorem foldl_purchasesUnique (ops : List Op) : ∀ db : DB,
    db.purchasesUnique → (ops.foldl applyOp db).purchasesUnique := by
  induction ops with
  | nil => intro db h; exact h
  | cons op t ih => intro db h; exact ih _ (applyOp_purchasesUnique db op h)

/-- Recorded ownership persists under any operation sequence. -/
theorem foldl_owns_mono (ops : List Op) : ∀ (db : DB) (u : Nat) (i : String),
    check_user_owns_content db u i = true →
    check_user_owns_content (ops.foldl applyOp db) u i = true := by
  induction ops with
  | nil => intro db u i h; exact h
  | cons op t ih =>
      intro db u i h
      exact ih _ u i (applyOp_owns_mono db op u i h)

/-! ## Sample states for the closed instantiations -/

/-- A small concrete database: one purchasable item, one VIP item, one
    recorded purchase for user 42, one active subscription for user 7. -/
def sampleDB : DB :=
  ⟨[⟨"photoset1", 25, "https://example.com/p1.jpg", "set one", "browse"⟩,
    ⟨"vipset1", 0, "fileid1", "vip set", "vip"⟩],
   [⟨42, "photoset1", 5, 25⟩],
   [⟨7, 0, 105, true, 3⟩],
   [⟨42, 25⟩, ⟨7, 0⟩], 30⟩

/-- A database whose only subscription row was lazily deactivated and
    carries a lifetime payment counter of 5. -/
def lapsedDB : DB :=
  ⟨[], [], [⟨7, 0, 50, false, 5⟩], [⟨7, 0⟩], 30⟩

/-! ## C1: replayed individual-item settlement -/

/-- **C1** (counterexample): in `sampleDB` user 42 already owns
    `photoset1`; replaying the settlement notification for that pair
    leaves the purchase table unchanged (`created=false`) but the handler
    delivers the content again, refuting that content delivery is
    triggered only when the Purchase row was created by this
    settlement. -/
theorem settle_replay_redelivers_counterexample :
    check_user_owns_content sampleDB 42 "photoset1" = true ∧
    (successful_payment_handler sampleDB
        ⟨"content_photoset1_42", 25⟩ 9).1.purchases = sampleDB.purchases ∧
    (successful_payment_handler sampleDB ⟨"content_photoset1_42", 25⟩ 9).2
      = [.delivered "photoset1" 42] := by
  refine ⟨by decide, by decide, by decide⟩

/-- **C1** (amended): for every replayed individual-item settlement whose
    payload parses to an already-owned (user, item) pair, the handler
    records no new Purchase row; however, it does not gate delivery on
    `created=true` — it delivers the content again whenever the item
    exists in the catalog. -/
theorem settle_replay_no_new_row_but_redelivers
    (db : DB) (payment : Payment) (now uid : Nat) (name uidStr : String)
    (hsplit : pySplitUnderscore payment.invoicePayload
      = ["content", name, uidStr])
    (huid : pyToNat uidStr = some uid)
    (howns : check_user_owns_content db uid name = true)
    (hitem : (db.findContent name).isSome) :
    (successful_payment_handler db payment now).1.purchases = db.purchases ∧
    SettleEffect.delivered name uid
      ∈ (successful_payment_handler db payment now).2 := by
  have hdb2 : insertOrIgnorePurchase
      (updateTotalSpent db uid payment.totalAmount)
      ⟨uid, name, now, payment.totalAmount⟩
      = updateTotalSpent db uid payment.totalAmount := by
    unfold insertOrIgnorePurchase
    rw [if_pos]
    exact howns
  unfold successful_payment_handler
  rw [hsplit]
  dsimp only
  rw [if_neg (fun h => absurd h.1 (by decide)), if_pos rfl, huid]
  dsimp only
  rw [hdb2]
  rcases Option.isSome_iff_exists.1 hitem with ⟨c, hc⟩
  have hfc : (updateTotalSpent db uid payment.totalAmount).findContent name
      = some c := hc
  rw [hfc]
  exact ⟨rfl, by simp⟩

/-- Closed instantiation of the amended C1 theorem: the replayed
    settlement of `photoset1` for user 42 in `sampleDB`. -/
theorem settle_replay_no_new_row_but_redelivers_witness :
    (successful_payment_handler sampleDB
        ⟨"content_photoset1_42", 25⟩ 9).1.purchases = sampleDB.purchases ∧
    SettleEffect.delivered "photoset1" 42
      ∈ (successful_payment_handler sampleDB
          ⟨"content_photoset1_42", 25⟩ 9).2 :=
  settle_replay_no_new_row_but_redelivers sampleDB
    ⟨"content_photoset1_42", 25⟩ 9 42 "photoset1" "42"
    (by decide) (by decide) (by decide) (by decide)

/-! ## C2: no dedupe of subscription payments -/

/-- `INSERT OR REPLACE` appends when no row with the key exists. -/
theorem insertOrReplaceSub_absent (db : DB) (row : SubscriptionRow)
    (h : db.subscriptions.find? (fun s => s.userId == row.userId) = none) :
    insertOrReplaceSub db row
      = { db with subscriptions := db.subscriptions ++ [row] } := by
  unfold insertOrReplaceSub
  rw [h]
  rfl

/-- **C2** (counterexample): user 42 of `sampleDB` has no subscription
    record; settling the identical subscription payment twice grants two
    periods (expiry 60, two payments counted) where exactly one period
    would end at 30 — the handler has no payment-identifier dedupe. -/
theorem double_vip_settlement_counterexample :
    (successful_payment_handler sampleDB
        ⟨"vip_subscription_42", 399⟩ 0).1.findSub 42
      = some ⟨42, 0, 30, true, 1⟩ ∧
    (successful_payment_handler
        (successful_payment_handler sampleDB ⟨"vip_subscription_42", 399⟩ 0).1
        ⟨"vip_subscription_42", 399⟩ 0).1.findSub 42
      = some ⟨42, 0, 60, true, 2⟩ ∧
    (60 : Nat) ≠ 30 :=
  ⟨by decide, by decide, by decide⟩

/-- The first settlement of a subscription payment is exactly the spend
    update followed by `activate_vip_subscription`. -/
theorem settle_vip_unfold (db : DB) (payment : Payment) (now uid : Nat)
    (uidStr : String)
    (hsplit : pySplitUnderscore payment.invoicePayload
      = ["vip", "subscription", uidStr])
    (huid : pyToNat uidStr = some uid) :
    (successful_payment_handler db payment now).1
      = (activate_vip_subscription
          (updateTotalSpent db uid payment.totalAmount) uid now).2 := by
  unfold successful_payment_handler
  rw [hsplit]
  dsimp only
  rw [if_pos ⟨rfl, rfl⟩, huid]

/-- The subscription table after an activation for a user with no
    subscription row at all: the fresh period is appended. -/
theorem activate_absent_subs (db : DB) (uid now : Nat)
    (hnone : db.findSub uid = none) :
    (activate_vip_subscription db uid now).2.subscriptions
      = db.subscriptions
        ++ [⟨uid, now, now + db.vipDurationDays, true, 1⟩] := by
  have h2 : db.findActiveSub uid = none :=
    findActive_eq_none_of_find_eq_none db.subscriptions uid hnone
  unfold activate_vip_subscription
  rw [h2]
  dsimp only
  rw [insertOrReplaceSub_absent db
    ⟨uid, now, now + db.vipDurationDays, true, 1⟩ hnone]

/-- The subscription row visible after activating on top of any existing
    row that is both the first active-flagged row and the first row of the
    user. -/
theorem activate_findSub_general (db : DB) (uid now : Nat)
    (row : SubscriptionRow)
    (hact : db.findActiveSub uid = some row)
    (hfind : db.findSub uid = some row) :
    (activate_vip_subscription db uid now).2.findSub uid
      = some { row with
          expiryDate := max row.expiryDate now + db.vipDurationDays,
          isActive := true, totalPayments := row.totalPayments + 1 } := by
  unfold activate_vip_subscription
  rw [hact]
  dsimp only [DB.findSub]
  rw [find?_map_keyed (fun r : SubscriptionRow => r.userId) uid
    (fun s =>
      { s with
        expiryDate := max row.expiryDate now + db.vipDurationDays,
        isActive := true, totalPayments := s.totalPayments + 1 })
    (fun r hr => hr)]
  rw [show db.subscriptions.find? (fun s => s.userId == uid) = some row
    from hfind]
  rfl

/-- **C2** (amended): settling the same subscription payment record twice
    is not idempotent: starting from a user with no subscription row, the
    second settlement extends the expiry by another full period (to
    now + 2·D with two payments counted) instead of leaving the single
    granted period in place. -/
theorem double_vip_settlement_two_periods
    (db : DB) (payment : Payment) (now uid : Nat) (uidStr : String)
    (hsplit : pySplitUnderscore payment.invoicePayload
      = ["vip", "subscription", uidStr])
    (huid : pyToNat uidStr = some uid)
    (hnone : db.findSub uid = none) :
    (successful_payment_handler
        (successful_payment_handler db payment now).1 payment now).1.findSub
        uid
      = some ⟨uid, now, now + db.vipDurationDays + db.vipDurationDays,
              true, 2⟩ := by
  have hsubs1 : (activate_vip_subscription
      (updateTotalSpent db uid payment.totalAmount) uid now).2.subscriptions
      = db.subscriptions
        ++ [⟨uid, now, now + db.vipDurationDays, true, 1⟩] :=
    activate_absent_subs (updateTotalSpent db uid payment.totalAmount) uid now
      hnone
  have hrow1 : (updateTotalSpent (activate_vip_subscription
      (updateTotalSpent db uid payment.totalAmount) uid now).2
      uid payment.totalAmount).findSub uid
      = some ⟨uid, now, now + db.vipDurationDays, true, 1⟩ := by
    show (activate_vip_subscription
      (updateTotalSpent db uid payment.totalAmount) uid
        now).2.subscriptions.find? (fun s => s.userId == uid) = _
    rw [hsubs1, List.find?_append,
      show db.subscriptions.find? (fun s => s.userId == uid) = none
        from hnone]
    simp [List.find?]
  have hact1 : (updateTotalSpent (activate_vip_subscription
      (updateTotalSpent db uid payment.totalAmount) uid now).2
      uid payment.totalAmount).findActiveSub uid
      = some ⟨uid, now, now + db.vipDurationDays, true, 1⟩ := by
    show (activate_vip_subscription
      (updateTotalSpent db uid payment.totalAmount) uid
        now).2.subscriptions.find?
        (fun s => s.userId == uid && s.isActive) = _
    rw [hsubs1, List.find?_append,
      findActive_eq_none_of_find_eq_none db.subscriptions uid hnone]
    simp [List.find?]
  rw [settle_vip_unfold db payment now uid uidStr hsplit huid]
  rw [settle_vip_unfold _ payment now uid uidStr hsplit huid]
  rw [activate_findSub_general _ uid now
    ⟨uid, now, now + db.vipDurationDays, true, 1⟩ hact1 hrow1]
  have hmax : max (now + db.vipDurationDays) now = now + db.vipDurationDays :=
    Nat.max_eq_left (Nat.le_add_right now db.vipDurationDays)
  simp [hmax, updateTotalSpent,
    (activate_frame (updateTotalSpent db uid payment.totalAmount) uid
      now).2.2.2]
  exact (activate_frame _ uid now).2.2.2

/-- Closed instantiation of the amended C2 theorem: double settlement for
    user 42 in `sampleDB`. -/
theorem double_vip_settlement_two_periods_witness :
    (successful_payment_handler
        (successful_payment_handler sampleDB ⟨"vip_subscription_42", 399⟩ 0).1
        ⟨"vip_subscription_42", 399⟩ 0).1.findSub 42
      = some ⟨42, 0, 60, true, 2⟩ :=
  double_vip_settlement_two_periods sampleDB ⟨"vip_subscription_42", 399⟩ 0
    42 "42" (by decide) (by decide) (by decide)

/-! ## C3: renewal expiry arithmetic -/

/-- **C3** (counterexample): in `sampleDB` user 7 is active with expiry
    105 at now = 100 (5 days remaining) with configured duration 30; the
    renewal sets the new expiry to 135 = 105 + 30 (35 days from now), not
    105 + 35 = 140 as "an expiry 35 days after the original expiry"
    requires. -/
theorem renew_expiry_counterexample :
    (activate_vip_subscription sampleDB 7 100).2.findSub 7
      = some ⟨7, 0, 135, true, 4⟩ ∧
    (135 : Nat) ≠ 105 + 35 :=
  ⟨by decide, by decide⟩

/-- **C3** (amended): Renew with configured duration D sets the new expiry
    to max(currentExpiry, now) + D when an active-flagged record exists,
    and to now + D otherwise; renewing while active with 5 days remaining
    and D = 30 yields an expiry 35 days from now, which is 30 — not 35 —
    days after the original expiry. -/
theorem renew_expiry_formula (db : DB) (uid now : Nat)
    (hu : db.subsUnique) :
    (∀ s, db.findActiveSub uid = some s →
      ∃ r, (activate_vip_subscription db uid now).2.findSub uid = some r ∧
        r.expiryDate = max s.expiryDate now + db.vipDurationDays) ∧
    (db.findActiveSub uid = none →
      ∃ r, (activate_vip_subscription db uid now).2.findSub uid = some r ∧
        r.expiryDate = now + db.vipDurationDays) ∧
    (∀ s, db.findActiveSub uid = some s → s.expiryDate = now + 5 →
      db.vipDurationDays = 30 →
      ∃ r, (activate_vip_subscription db uid now).2.findSub uid = some r ∧
        r.expiryDate = s.expiryDate + 30 ∧ r.expiryDate = now + 35) := by
  refine ⟨?_, ?_, ?_⟩
  · intro s hs
    exact ⟨_, activate_findSub_of_active db uid now s hu hs, rfl⟩
  · intro hs
    exact ⟨_, activate_findSub_of_inactive db uid now hs, rfl⟩
  · intro s hs h5 h30
    refine ⟨_, activate_findSub_of_active db uid now s hu hs, ?_, ?_⟩
    · show max s.expiryDate now + db.vipDurationDays = s.expiryDate + 30
      rw [h30, h5, Nat.max_eq_left (by omega)]
    · show max s.expiryDate now + db.vipDurationDays = now + 35
      rw [h30, h5, Nat.max_eq_left (by omega)]

/-- Closed instantiation of the amended C3 theorem: the renewal of user 7
    in `sampleDB` at now = 100. -/
theorem renew_expiry_formula_witness :
    ∃ r, (activate_vip_subscription sampleDB 7 100).2.findSub 7 = some r ∧
      r.expiryDate = (105 : Nat) + 30 ∧ r.expiryDate = 100 + 35 := by
  have h := renew_expiry_formula sampleDB 7 100
    (by unfold DB.subsUnique; decide)
  rcases h.2.2 ⟨7, 0, 105, true, 3⟩ (by decide) (by decide) (by decide)
    with ⟨r, hr, h1, h2⟩
  exact ⟨r, hr, h1, h2⟩

/-! ## C8: renewal counter and active flag -/

/-- **C8** (counterexample): in `lapsedDB` user 7's only subscription row
    was lazily deactivated and carries lifetime counter 5; renewal at
    now = 100 writes a fresh row with counter 1 instead of incrementing
    the counter to 6. -/
theorem renew_counter_reset_counterexample :
    (activate_vip_subscription lapsedDB 7 100).2.findSub 7
      = some ⟨7, 100, 130, true, 1⟩ ∧
    (1 : Nat) ≠ 5 + 1 :=
  ⟨by decide, by decide⟩

/-- **C8** (amended): Renew increments the lifetime counter by exactly one
    and sets the active flag when an active-flagged record exists; when no
    record exists — and likewise when the record had been lazily
    deactivated — it writes a fresh row whose counter is reset to 1
    rather than incremented. -/
theorem renew_counter_behaviour (db : DB) (uid now : Nat)
    (hu : db.subsUnique) :
    (∀ s, db.findActiveSub uid = some s →
      (activate_vip_subscription db uid now).2.findSub uid
        = some { s with
            expiryDate := max s.expiryDate now + db.vipDurationDays,
            isActive := true, totalPayments := s.totalPayments + 1 }) ∧
    (db.findActiveSub uid = none →
      (activate_vip_subscription db uid now).2.findSub uid
        = some ⟨uid, now, now + db.vipDurationDays, true, 1⟩) :=
  ⟨fun s hs => activate_findSub_of_active db uid now s hu hs,
   fun hs => activate_findSub_of_inactive db uid now hs⟩

/-- Closed instantiation of the amended C8 theorem at `lapsedDB`
    (deactivated record present: counter reset to 1). -/
theorem renew_counter_behaviour_witness :
    (activate_vip_subscription lapsedDB 7 100).2.findSub 7
      = some ⟨7, 100, 100 + lapsedDB.vipDurationDays, true, 1⟩ :=
  (renew_counter_behaviour lapsedDB 7 100
    (by unfold DB.subsUnique; decide)).2 (by decide)

/-! ## C4: purchase uniqueness and permanence -/

/-- **C4**: purchase-key uniqueness is preserved by every operation
    sequence; recorded ownership persists under every later operation; a
    second buy attempt for an owned purchasable item answers already-owned
    (no invoice is sent); and a purchase insert makes ownership true. -/
theorem purchase_rows_unique_owned_forever (db : DB) (ops : List Op)
    (u : Nat) (i : String) :
    (db.purchasesUnique → (ops.foldl applyOp db).purchasesUnique) ∧
    (check_user_owns_content db u i = true →
      check_user_owns_content (ops.foldl applyOp db) u i = true) ∧
    ((db.contentItems.find?
        (fun c => c.name == i && c.contentType == "browse")).isSome →
      check_user_owns_content db u i = true →
      purchase_item db u i = .alreadyOwned i) ∧
    (∀ row : PurchaseRow,
      check_user_owns_content (insertOrIgnorePurchase db row)
        row.userId row.contentName = true) := by
  refine ⟨foldl_purchasesUnique ops db, foldl_owns_mono ops db u i, ?_, ?_⟩
  · intro hfind howns
    rcases Option.isSome_iff_exists.1 hfind with ⟨item, hitem⟩
    have hp := List.find?_some hitem
    simp only [Bool.and_eq_true, beq_iff_eq] at hp
    unfold purchase_item
    rw [hitem]
    dsimp only
    have hne : ¬((item.contentType != "browse") = true) := by
      simp [hp.2]
    rw [if_neg hne]
    have howns2 : check_user_owns_content db u item.name = true := by
      rw [hp.1]
      exact howns
    rw [if_pos howns2, hp.1]
  · intro row
    unfold insertOrIgnorePurchase check_user_owns_content
    by_cases hex : ((db.purchases.find? (fun p => p.userId == row.userId &&
        p.contentName == row.contentName)).isSome = true)
    · rw [if_pos hex]
      exact hex
    · rw [if_neg hex]
      dsimp only
      rw [List.find?_append, Option.not_isSome_iff_eq_none.1 hex]
      simp [List.find?]

/-- Closed instantiation of the C4 theorem at `sampleDB` with a sample
    operation sequence. -/
theorem purchase_rows_unique_owned_forever_witness :
    (([Op.settle ⟨"content_photoset1_42", 25⟩ 9, Op.renew 7 100,
        Op.vipStatus 7 200].foldl applyOp sampleDB)).purchasesUnique ∧
    check_user_owns_content ([Op.settle ⟨"content_photoset1_42", 25⟩ 9,
        Op.renew 7 100, Op.vipStatus 7 200].foldl applyOp sampleDB)
      42 "photoset1" = true ∧
    purchase_item sampleDB 42 "photoset1" = .alreadyOwned "photoset1" ∧
    check_user_owns_content
      (insertOrIgnorePurchase sampleDB ⟨42, "vipset1", 9, 10⟩) 42 "vipset1"
      = true := by
  have h := purchase_rows_unique_owned_forever sampleDB
    [Op.settle ⟨"content_photoset1_42", 25⟩ 9, Op.renew 7 100,
     Op.vipStatus 7 200] 42 "photoset1"
  exact ⟨h.1 (by unfold DB.purchasesUnique; decide), h.2.1 (by decide),
    h.2.2.1 (by decide) (by decide), h.2.2.2 ⟨42, "vipset1", 9, 10⟩⟩

/-! ## C5: lazy deactivation and idempotence -/

/-- The second status check for the same user at the same time changes no
    state and reports the same `is_vip` and `days_left`. -/
theorem check_vip_status_second_call (db : DB) (uid now : Nat) :
    (check_vip_status (check_vip_status db uid now).2 uid now).2
      = (check_vip_status db uid now).2 ∧
    (check_vip_status (check_vip_status db uid now).2 uid now).1.isVip
      = (check_vip_status db uid now).1.isVip ∧
    (check_vip_status (check_vip_status db uid now).2 uid now).1.daysLeft
      = (check_vip_status db uid now).1.daysLeft := by
  rcases hfa : db.findActiveSub uid with _ | s
  · have h0 : check_vip_status db uid now = (⟨false, 0, false⟩, db) := by
      unfold check_vip_status
      rw [hfa]
    rw [h0]
    dsimp only
    rw [h0]
    exact ⟨rfl, rfl, rfl⟩
  · by_cases hlt : now < s.expiryDate
    · have h0 : check_vip_status db uid now
          = (⟨true, s.expiryDate - now, false⟩, db) := by
        unfold check_vip_status
        rw [hfa]
        dsimp only
        rw [if_pos hlt]
      rw [h0]
      dsimp only
      rw [h0]
      exact ⟨rfl, rfl, rfl⟩
    · have h0 : check_vip_status db uid now
          = (⟨false, 0, true⟩, deactivate_expired_vip db uid) := by
        unfold check_vip_status
        rw [hfa]
        dsimp only
        rw [if_neg hlt]
      have h1 : check_vip_status (deactivate_expired_vip db uid) uid now
          = (⟨false, 0, false⟩, deactivate_expired_vip db uid) := by
        unfold check_vip_status
        rw [findActiveSub_deactivate]
      rw [h0]
      dsimp only
      rw [h1]
      exact ⟨rfl, rfl, rfl⟩

/-- **C5** (counterexample): in `sampleDB` user 7's subscription (expiry
    105) checked at now = 200: the first call reports `expired = true`
    and deactivates; the repeated call returns a different result record
    (`expired = false`), so repeated calls do not return the same
    result. -/
theorem vip_status_result_changes_counterexample :
    (check_vip_status sampleDB 7 200).1 = ⟨false, 0, true⟩ ∧
    (check_vip_status (check_vip_status sampleDB 7 200).2 7 200).1
      = ⟨false, 0, false⟩ ∧
    (check_vip_status sampleDB 7 200).1
      ≠ (check_vip_status (check_vip_status sampleDB 7 200).2 7 200).1 :=
  ⟨by decide, by decide, by decide⟩

/-- **C5** (amended): when the stored active subscription's expiry is
    ≤ now the status check reports inactive and flips the stored flag
    (lazy deactivation); the repeated call causes no further state change
    and reports the same `is_vip` and `days_left`, but the `expired`
    field differs: it is true only on the call that deactivated. -/
theorem vip_status_lazy_deactivation (db : DB) (uid now : Nat) :
    (∀ s, db.findActiveSub uid = some s → s.expiryDate ≤ now →
      check_vip_status db uid now
        = (⟨false, 0, true⟩, deactivate_expired_vip db uid)) ∧
    (check_vip_status (check_vip_status db uid now).2 uid now).2
      = (check_vip_status db uid now).2 ∧
    (check_vip_status (check_vip_status db uid now).2 uid now).1.isVip
      = (check_vip_status db uid now).1.isVip ∧
    (check_vip_status (check_vip_status db uid now).2 uid now).1.daysLeft
      = (check_vip_status db uid now).1.daysLeft := by
  refine ⟨?_, check_vip_status_second_call db uid now⟩
  intro s hs hle
  unfold check_vip_status
  rw [hs]
  dsimp only
  rw [if_neg (by omega : ¬ now < s.expiryDate)]

/-- Closed instantiation of the amended C5 theorem: user 7 of `sampleDB`
    checked twice at now = 200. -/
theorem vip_status_lazy_deactivation_witness :
    check_vip_status sampleDB 7 200
      = (⟨false, 0, true⟩, deactivate_expired_vip sampleDB 7) ∧
    (check_vip_status (check_vip_status sampleDB 7 200).2 7 200).2
      = (check_vip_status sampleDB 7 200).2 := by
  have h := vip_status_lazy_deactivation sampleDB 7 200
  exact ⟨h.1 ⟨7, 0, 105, true, 3⟩ (by decide) (by decide), h.2.1⟩

/-! ## C6: subscription-exclusive items are never individually sold -/

/-- **C6**: for every item stored with the VIP pool tag, a purchase
    request answers the specific VIP-exclusive denial — never an invoice,
    never the catalog-miss — regardless of the item's displayed price and
    of the requesting user's purchase or subscription state. -/
theorem vip_item_purchase_not_individual (db : DB) (u : Nat) (i : String)
    (c : ContentItem) (hu : db.contentNamesUnique)
    (hc : db.findContent i = some c) (hv : c.contentType = "vip") :
    purchase_item db u i = .notIndividual i := by
  have hcp := List.find?_some hc
  simp only [beq_iff_eq] at hcp
  have hcm : c ∈ db.contentItems := List.mem_of_find?_eq_some hc
  have hnone : db.contentItems.find?
      (fun x => x.name == i && x.contentType == "browse") = none := by
    rw [List.find?_eq_none]
    intro a ha hpa
    simp only [Bool.and_eq_true, beq_iff_eq] at hpa
    have hac : a = c := contentItem_eq_of_name_eq db.contentItems hu ha hcm
      (hpa.1.trans hcp.symm)
    rw [hac, hv] at hpa
    exact absurd hpa.2 (by decide)
  unfold purchase_item
  rw [hnone]
  dsimp only
  rw [show db.findContent i = some c from hc]
  dsimp only
  rw [if_pos (by simp [hv] : (c.contentType == "vip") = true)]

/-- Closed instantiation of the C6 theorem: buying the VIP item of
    `sampleDB`. -/
theorem vip_item_purchase_not_individual_witness :
    purchase_item sampleDB 42 "vipset1" = .notIndividual "vipset1" :=
  vip_item_purchase_not_individual sampleDB 42 "vipset1"
    ⟨"vipset1", 0, "fileid1", "vip set", "vip"⟩
    (by unfold DB.contentNamesUnique; decide) (by decide) (by decide)

/-! ## C7: the VIP library is denied or complete -/

/-- **C7**: the VIP catalog answers the upgrade denial whenever the status
    check reports non-VIP — and an item list it returns is never empty —
    while for a VIP caller every VIP-tagged item is rendered in the
    catalog with the free-access label and free-delivery callback. -/
theorem vip_library_denied_or_full (db : DB) (uid now : Nat) :
    ((check_vip_status db uid now).1.isVip = false →
      (show_vip_catalog db uid now).1 = .denied) ∧
    ((check_vip_status db uid now).1.isVip = true →
      ∀ c ∈ db.contentItems, c.contentType = "vip" →
        ∃ entries, (show_vip_catalog db uid now).1 = .catalog entries ∧
          (⟨c.name, "VIP FREE ACCESS", "vip_get_" ++ c.name⟩ :
            VipCatalogEntry) ∈ entries) ∧
    (∀ entries, (show_vip_catalog db uid now).1 = .catalog entries →
      entries ≠ []) := by
  unfold show_vip_catalog
  dsimp only
  by_cases hvip : (check_vip_status db uid now).1.isVip
  · rw [if_neg (by simp [hvip])]
    refine ⟨?_, ?_, ?_⟩
    · intro h
      rw [hvip] at h
      cases h
    · intro _ c hcm hct
      have hcf : c ∈ (check_vip_status db uid now).2.contentItems.filter
          (fun x => x.contentType == "vip") := by
        rw [(check_vip_status_frame db uid now).1]
        exact List.mem_filter.2 ⟨hcm, by simp [hct]⟩
      have hemp : ((check_vip_status db uid now).2.contentItems.filter
          (fun x => x.contentType == "vip")).isEmpty = false := by
        rcases hfil : (check_vip_status db uid now).2.contentItems.filter
            (fun x => x.contentType == "vip") with _ | ⟨x, xs⟩
        · rw [hfil] at hcf
          cases hcf
        · rw [hfil]
          rfl
      rw [if_neg (by simp [hemp])]
      exact ⟨_, rfl, List.mem_map.2 ⟨c, hcf, rfl⟩⟩
    · intro entries hcat
      by_cases hemp : (((check_vip_status db uid now).2.contentItems.filter
          (fun x => x.contentType == "vip")).isEmpty = true)
      · rw [if_pos hemp] at hcat
        cases hcat
      · rw [if_neg hemp] at hcat
        dsimp only at hcat
        injection hcat with hmap
        intro hnil
        rw [hnil] at hmap
        have hfil : (check_vip_status db uid now).2.contentItems.filter
            (fun x => x.contentType == "vip") = [] :=
          List.map_eq_nil_iff.1 hmap
        rw [hfil] at hemp
        exact hemp rfl
  · have hfalse : (check_vip_status db uid now).1.isVip = false :=
      Bool.eq_false_iff.mpr hvip
    rw [if_pos (by simp [hfalse])]
    refine ⟨fun _ => rfl, ?_, ?_⟩
    · intro h
      rw [hfalse] at h
      cases h
    · intro entries hcat
      cases hcat

/-- Closed instantiation of the C7 theorem: the library shown to the
    active VIP user 7 of `sampleDB` contains its VIP item, free. -/
theorem vip_library_denied_or_full_witness :
    ∃ entries, (show_vip_catalog sampleDB 7 100).1 = .catalog entries ∧
      (⟨"vipset1", "VIP FREE ACCESS", "vip_get_vipset1"⟩ : VipCatalogEntry)
        ∈ entries := by
  have h := vip_library_denied_or_full sampleDB 7 100
  rcases h.2.1 (by decide) ⟨"vipset1", 0, "fileid1", "vip set", "vip"⟩
      (by decide) (by decide) with ⟨entries, he, hm⟩
  exact ⟨entries, he, hm⟩

/-! ## C9: ingestion name validation -/

/-- A regular (non-VIP) upload session awaiting the content name. -/
def sampleSession : UploadSession :=
  ⟨none, none, .waitingForName, none, none, none, some "fileid9",
   some "photo"⟩

/-- A name-step text input that fails validation or collides leaves the
    VIP session untouched. -/
theorem name_step_reject (db : DB) (session : UploadSession) (text : String)
    (hbad : validContentName (pyStrip text) = false ∨
      (db.contentItems.find? (fun c => c.name == pyStrip text)).isSome
        = true) :
    handle_vip_name_input db session text = (db, some session) := by
  unfold handle_vip_name_input
  dsimp only
  rcases hbad with h | h
  · rw [if_pos (by simp [h])]
  · by_cases hval : validContentName (pyStrip text)
    · rw [if_neg (by simp [hval]), if_pos h]
    · rw [if_pos (by simp [Bool.eq_false_iff.mpr hval])]

/-- **C9** (counterexample): a regular session awaiting a name that
    receives the price input "25" advances to the price step with the
    name "25": the numeric input passes the name validation, so a price
    sent while `AwaitingName` does advance the cursor. -/
theorem upload_price_input_advances_counterexample :
    handle_upload_flow sampleDB sampleSession "25"
      = (sampleDB, some { sampleSession with
          name := some "25", step := .waitingForPrice }) ∧
    UploadStep.waitingForPrice ≠ UploadStep.waitingForName :=
  ⟨by decide, by decide⟩

/-- **C9** (amended): in a session awaiting a name (regular or VIP), an
    input that is empty, has whitespace or other invalid characters, or
    collides with an existing content name leaves the session exactly as
    it was — fields intact, no content row created; a text while the
    session still awaits the file likewise changes nothing; but a
    price-like numeric input passes the name validation and advances a
    regular session to the price step. -/
theorem upload_name_validation (db : DB) (session : UploadSession)
    (text : String) :
    (session.step = .waitingForName →
      (validContentName (pyStrip text) = false ∨
        (db.contentItems.find?
          (fun c => c.name == pyStrip text)).isSome = true) →
      handle_upload_flow db session text = (db, some session)) ∧
    (session.step = .waitingForFile →
      handle_upload_flow db session text = (db, some session)) ∧
    (session.sessionType ≠ some "vip_content" →
      session.step = .waitingForName →
      validContentName (pyStrip text) = true →
      (db.contentItems.find?
        (fun c => c.name == pyStrip text)).isSome = false →
      handle_upload_flow db session text
        = (db, some { session with
            name := some (pyStrip text), step := .waitingForPrice })) := by
  refine ⟨?_, ?_, ?_⟩
  · intro hstep hbad
    unfold handle_upload_flow
    by_cases hvip : session.sessionType = some "vip_content"
    · rw [if_pos ⟨hvip, hstep⟩]
      exact name_step_reject db session text hbad
    · rw [if_neg (fun h => hvip h.1), if_neg (fun h => hvip h.1), hstep]
      dsimp only
      rcases hbad with h | h
      · rw [if_pos (by simp [h])]
      · by_cases hval : validContentName (pyStrip text)
        · rw [if_neg (by simp [hval]), if_pos h]
        · rw [if_pos (by simp [Bool.eq_false_iff.mpr hval])]
  · intro hstep
    unfold handle_upload_flow
    rw [if_neg (fun h => by rw [hstep] at h; exact absurd h.2 (by decide)),
        if_neg (fun h => by rw [hstep] at h; exact absurd h.2 (by decide)),
        hstep]
  · intro hnv hstep hval hnocol
    unfold handle_upload_flow
    rw [if_neg (fun h => hnv h.1), if_neg (fun h => hnv h.1), hstep]
    dsimp only
    rw [if_neg (by simp [hval]), if_neg (by simp [hnocol])]

/-- Closed instantiation of the amended C9 theorem: an invalid name, a
    colliding name, a text while awaiting the file, and a numeric price
    input, all against `sampleDB`. -/
theorem upload_name_validation_witness :
    handle_upload_flow sampleDB sampleSession "bad name!"
      = (sampleDB, some sampleSession) ∧
    handle_upload_flow sampleDB sampleSession "photoset1"
      = (sampleDB, some sampleSession) ∧
    handle_upload_flow sampleDB
      { sampleSession with step := .waitingForFile } "hello"
      = (sampleDB, some { sampleSession with step := .waitingForFile }) ∧
    handle_upload_flow sampleDB sampleSession "25"
      = (sampleDB, some { sampleSession with
          name := some "25", step := .waitingForPrice }) := by
  have h1 := upload_name_validation sampleDB sampleSession "bad name!"
  have h2 := upload_name_validation sampleDB sampleSession "photoset1"
  have h3 := upload_name_validation sampleDB
    { sampleSession with step := .waitingForFile } "hello"
  have h4 := upload_name_validation sampleDB sampleSession "25"
  exact ⟨h1.1 rfl (Or.inl (by decide)), h2.1 rfl (Or.inr (by decide)),
    h3.2.1 rfl, h4.2.2 (by decide) rfl (by decide) (by decide)⟩

/-! ## C10: double spend on replayed settlement -/

/-- **C10**: a replayed individual-item settlement for an already-owned
    (user, item) pair leaves the Purchase relation unchanged but still
    adds the payment amount to the user's lifetime `total_stars_spent` a
    second time: settlement is not a pure no-op on the user record. -/
theorem replay_settlement_double_spend
    (db : DB) (payment : Payment) (now uid t : Nat) (name uidStr : String)
    (hsplit : pySplitUnderscore payment.invoicePayload
      = ["content", name, uidStr])
    (huid : pyToNat uidStr = some uid)
    (howns : check_user_owns_content db uid name = true)
    (hspent : db.totalSpent uid = some t) :
    (successful_payment_handler db payment now).1.purchases = db.purchases ∧
    (successful_payment_handler db payment now).1.totalSpent uid
      = some (t + payment.totalAmount) := by
  have hdb2 : insertOrIgnorePurchase
      (updateTotalSpent db uid payment.totalAmount)
      ⟨uid, name, now, payment.totalAmount⟩
      = updateTotalSpent db uid payment.totalAmount := by
    unfold insertOrIgnorePurchase
    rw [if_pos]
    exact howns
  unfold successful_payment_handler
  rw [hsplit]
  dsimp only
  rw [if_neg (fun h => absurd h.1 (by decide)), if_pos rfl, huid]
  dsimp only
  rw [hdb2]
  cases hfc : (updateTotalSpent db uid payment.totalAmount).findContent name
  all_goals
    refine ⟨rfl, ?_⟩
  all_goals
    rw [totalSpent_update, hspent]
    rfl

/-- Closed instantiation of the C10 theorem: the replayed settlement of
    `photoset1` for user 42 in `sampleDB` (lifetime spend 25 → 50). -/
theorem replay_settlement_double_spend_witness :
    (successful_payment_handler sampleDB
        ⟨"content_photoset1_42", 25⟩ 9).1.purchases = sampleDB.purchases ∧
    (successful_payment_handler sampleDB
        ⟨"content_photoset1_42", 25⟩ 9).1.totalSpent 42 = some (25 + 25) :=
  replay_settlement_double_spend sampleDB ⟨"content_photoset1_42", 25⟩ 9
    42 25 "photoset1" "42" (by decide) (by decide) (by decide) (by decide)

end ContentBot
